import Mathlib

/-!
Shallow embedding of `src/golem/ethereum/node.py` (the module-level helpers
and the `NodeProcess` supervisor class).

Pure data and control flow are translated directly from the Python source.
I/O effects (HTTP requests, process spawning, file system, logging,
sleeping) are abstracted into explicit oracle/environment parameters:

* `Env` carries the answers the operating system gives during one `start`
  call: whether a `geth` binary is found by `find_program` and which
  version its `geth version` output reports, the port picked by
  `find_free_net_port`, the pid of a spawned child process, the system
  temp directory returned by `tempfile.gettempdir()`, and whether
  `is_windows()` holds.
* An attempt oracle `Nat → AttemptOutcome` gives, for each connection
  attempt (one entry of `NodeProcess.start` per attempt, counted by an
  index), the single observable outcome of that attempt's two polling
  loops: either the shared 10-second deadline elapsed while still polling
  (`timeout`), or a genesis block was obtained before the deadline
  (`genesis b`).  This is faithful because each attempt's loops always end
  in exactly one of these two ways.

Python exceptions are modelled with `Except`: a raised exception is an
`Except.error` carrying an `Err` value mirroring the exception raised by
the source.
-/

namespace Golem

/-- Three-component version, as produced by `StrictVersion` applied to the
`Version: <major>.<minor>.<patch>` match extracted from `geth version`
output in `NodeProcess._find_geth`.  The regex only ever yields plain
`a.b.c` tokens, so the prerelease component of `StrictVersion` is always
absent and comparison is purely on the numeric triple. -/
structure GethVersion where
  major : Nat
  minor : Nat
  patch : Nat
deriving DecidableEq

/-- `StrictVersion.__lt__`: lexicographic comparison of the
`(major, minor, patch)` tuples. -/
def GethVersion.lt (a b : GethVersion) : Bool :=
  decide (a.major < b.major) ||
    (decide (a.major = b.major) &&
      (decide (a.minor < b.minor) ||
        (decide (a.minor = b.minor) && decide (a.patch < b.patch))))

/-- Non-strict version order: `a ≤ b` iff `a < b` or `a = b`. -/
def GethVersion.le (a b : GethVersion) : Bool :=
  GethVersion.lt a b || decide (a = b)

/-- `NODE_LIST_URL` (module constant). -/
def NODE_LIST_URL : String := "https://rinkeby.golem.network"

/-- `FALLBACK_NODE_LIST` (module constant). -/
def FALLBACK_NODE_LIST : List String :=
  ["http://188.165.227.180:55555",
   "http://94.23.17.170:55555",
   "http://94.23.57.58:55555"]

/-- `get_public_nodes()`.

The `requests.get(NODE_LIST_URL).json()` call is abstracted by the
`fetch` argument: `some nodes` means the request and JSON decoding
succeeded and produced the list `nodes`; `none` means some exception was
raised (network error, malformed body, ...), which the source catches and
logs.  `random.shuffle` permutes `FALLBACK_NODE_LIST[:]` in place; the
permutation actually drawn is abstracted by the `shuffle` argument
(theorems assume it yields a permutation of its input). -/
def get_public_nodes (fetch : Option (List String))
    (shuffle : List String → List String) : List String :=
  match fetch with
  | some nodes => nodes
  | none => shuffle FALLBACK_NODE_LIST

/-- A block as returned by `web3.eth.getBlock(0)`; only its `hash` entry
is ever read (in `NodeProcess.identify_chain`). -/
structure Block where
  hash : String
deriving DecidableEq

/-- The RPC provider handle built during `start`: either an `IPCProvider`
over a local ipc path or an `HTTPProvider` over a remote address. -/
inductive Provider where
  | ipc (path : String)
  | http (addr : String)
deriving DecidableEq

/-- The exceptions the embedded code can raise.

* `alreadyStarted` — `RuntimeError("Ethereum node already started by us")`
* `cannotConnect provider` — `OSError("Cannot connect to geth: ...")`,
  naming the attempted provider
* `wrongChain chain` — `OSError("Wrong '<chain>' Ethereum chain")`
* `gethNotFound` — `OSError("Ethereum client 'geth' not found")`
* `incompatibleVersion v` — `OSError("Incompatible geth version: ...")`
* `popFromEmpty` — the `IndexError` that `self.addr_list.pop()` raises on
  an empty list
* `attributeError` — the `AttributeError` raised when evaluating the
  exception class expression `subprocess.NoSuchProcess` in `stop`'s
  `except` clause (the `subprocess` module has no such attribute)
* `fuelExhausted` — an artifact of the embedding, see
  `NodeProcess.startFuel`; proved unreachable in
  `start_never_fuel_exhausted`. -/
inductive Err where
  | alreadyStarted
  | cannotConnect (provider : Provider)
  | wrongChain (chain : String)
  | gethNotFound
  | incompatibleVersion (v : GethVersion)
  | popFromEmpty
  | attributeError
  | fuelExhausted
deriving DecidableEq

/-- Observable outcome of one connection attempt's polling loops in
`NodeProcess.start` (lines 131-145 of the source): the shared deadline
elapsed first, or a genesis block was obtained first. -/
inductive AttemptOutcome where
  | timeout
  | genesis (b : Block)

/-- The mutable state of a `NodeProcess` instance, fields in the order
they are assigned in `__init__` (the name-mangled `self.__prog` and
`self.__ps` appear as `prog` and `ps`). -/
structure NodeProcess where
  datadir : String
  start_node : Bool
  web3 : Option Provider
  addr_list : List String
  prog : Option String
  ps : Option Nat
deriving DecidableEq

/-- `NodeProcess.__init__(datadir, addr, start_node)`.

`self.addr_list = [addr] if addr else get_public_nodes()`: the value that
`get_public_nodes()` would return is passed in as `public_nodes` (it is
only used when `addr` is absent). -/
def NodeProcess.init (datadir : String) (addr : Option String)
    (public_nodes : List String) (start_node : Bool) : NodeProcess :=
  { datadir := datadir
    start_node := start_node
    web3 := none
    addr_list := match addr with
      | some a => [a]
      | none => public_nodes
    prog := none
    ps := none }

/-- `NodeProcess.is_running`: `return self.__ps is not None`. -/
def NodeProcess.is_running (s : NodeProcess) : Bool :=
  s.ps.isSome

/-- `MIN_GETH_VERSION = StrictVersion('1.7.2')`. -/
def MIN_GETH_VERSION : GethVersion := ⟨1, 7, 2⟩

/-- `MAX_GETH_VERSION = StrictVersion('1.7.999')`. -/
def MAX_GETH_VERSION : GethVersion := ⟨1, 7, 999⟩

/-- `CONNECTION_TIMEOUT = 10` (seconds; absorbed into the attempt
oracle, recorded here for completeness). -/
def CONNECTION_TIMEOUT : Nat := 10

/-- `CHAIN = 'rinkeby'`. -/
def CHAIN : String := "rinkeby"

/-- The genesis hash of the Ethereum main network (key of the `GENESES`
table in `NodeProcess.identify_chain`). -/
def MAINNET_GENESIS_HASH : String :=
  "0xd4e56740f876aef8c010b86a40d5f56745a118d0906a34e69aec8c0db1cb8fa3"

/-- The genesis hash of the Ropsten test network. -/
def ROPSTEN_GENESIS_HASH : String :=
  "0x41941023680923e0fe4d74a34bdac8141f2540e3ae90623718e47d66d1ca4a2d"

/-- The genesis hash of the Rinkeby test network. -/
def RINKEBY_GENESIS_HASH : String :=
  "0x6341fd3daf94b748c72ced5a5b26028f2474f5f00d824504e4fa37a75767e177"

/-- The `GENESES` dictionary local to `NodeProcess.identify_chain`,
as an association list. -/
def GENESES : List (String × String) :=
  [(MAINNET_GENESIS_HASH, "mainnet"),
   (ROPSTEN_GENESIS_HASH, "ropsten"),
   (RINKEBY_GENESIS_HASH, "rinkeby")]

/-- `NodeProcess.identify_chain`: `GENESES.get(genesis_block['hash'],
'unknown')` (the method ignores `self`; the log call is dropped). -/
def identify_chain (genesis_block : Block) : String :=
  (GENESES.lookup genesis_block.hash).getD "unknown"

/-- The answers the operating system gives during one `start` call. -/
structure Env where
  /-- `find_program('geth')` combined with the version the binary reports:
  `none` when no `geth` executable is on the PATH, otherwise the found
  path together with the parsed `Version: a.b.c` triple. -/
  geth : Option (String × GethVersion)
  /-- the port `find_free_net_port()` would pick -/
  freePort : Nat
  /-- the pid of the child process `subprocess.Popen` would spawn -/
  pid : Nat
  /-- `tempfile.gettempdir()` -/
  tmpdir : String
  /-- `is_windows()` -/
  windows : Bool

/-- Python's `str()` of a `bool`. -/
def pyStrOfBool : Bool → String
  | true => "True"
  | false => "False"

/-- `NodeProcess._find_geth`: locate the binary, parse and bound-check the
reported version, record the program path in `self.__prog`. -/
def NodeProcess.find_geth (env : Env) (s : NodeProcess) :
    Except Err NodeProcess :=
  match env.geth with
  | none => .error .gethNotFound
  | some (geth, ver) =>
    if GethVersion.lt ver MIN_GETH_VERSION ||
        GethVersion.lt MAX_GETH_VERSION ver then
      .error (.incompatibleVersion ver)
    else
      .ok { s with prog := some geth }

/-- `NodeProcess._create_local_ipc_provider(chain, start_port)`.

Directory creation, the `geth` argument vector, the `Popen` call and the
two tee threads are I/O effects; what the rest of the program observes is
the constructed ipc path (returned inside the `IPCProvider`), the updated
`self.__prog` (via `_find_geth`) and the new child process handle
`self.__ps`.  `os.path.join(tempdir, ipc_file)` is modelled with a `/`
separator (on Windows the joined value is overwritten anyway).  Note the
source formats `self.start_node` — a boolean — into the Windows named
pipe path, not `ipc_file`. -/
def NodeProcess.create_local_ipc_provider (env : Env) (chain : String)
    (start_port : Option Nat) (s : NodeProcess) :
    Except Err (Provider × NodeProcess) :=
  match NodeProcess.find_geth env s with
  | .error e => .error e
  | .ok s0 =>
    let port := match start_port with
      | none => env.freePort
      | some p => p
    let ipc_file := chain ++ "-" ++ toString port
    let joined := env.tmpdir ++ "/" ++ ipc_file
    let ipc_path :=
      if env.windows then "\\\\.\\pipe\\" ++ pyStrOfBool s0.start_node
      else joined
    .ok (Provider.ipc ipc_path, { s0 with ps := some env.pid })

/-- `NodeProcess._create_remote_rpc_provider`: `self.addr_list.pop()`
removes and returns the LAST element (raising `IndexError` when the list
is empty) and an `HTTPProvider` is built from it. -/
def NodeProcess.create_remote_rpc_provider (s : NodeProcess) :
    Except Err (Provider × NodeProcess) :=
  match s.addr_list.getLast? with
  | none => .error .popFromEmpty
  | some addr =>
    .ok (Provider.http addr, { s with addr_list := s.addr_list.dropLast })

/-- What `NodeProcess._start_timed_out(provider, start_port)` decides:
either fall through to `return self.start(start_port)` after the mode
update `self.start_node = not self.addr_list` (the `retry` case, carrying
the updated state), or `raise OSError("Cannot connect to geth: ...")`. -/
inductive TimeoutDecision where
  | retry (s : NodeProcess)
  | fail (e : Err)

/-- `NodeProcess._start_timed_out` (the decision part; the re-entry into
`start` is performed by the caller `startFuel`). -/
def NodeProcess.start_timed_out (provider : Provider) (s : NodeProcess) :
    TimeoutDecision :=
  if !s.start_node then
    .retry { s with start_node := s.addr_list.isEmpty }
  else
    .fail (.cannotConnect provider)

/-- `NodeProcess.start(start_port)`, with the recursion through
`_start_timed_out` made structural on an explicit attempt bound `fuel`.

In the source every retry first pops one remote candidate (or is the
final local attempt, which never retries), so the recursion depth of
`start` is bounded by `len(self.addr_list) + 1`; `NodeProcess.start`
below instantiates `fuel` with exactly that bound and
`start_never_fuel_exhausted` proves the `fuelExhausted` branch is never
taken from it.  `i` indexes the attempt for the outcome oracle `oc`. -/
def NodeProcess.startFuel :
    Nat → Env → (Nat → AttemptOutcome) → Nat → Option Nat →
    NodeProcess → Except Err NodeProcess
  | 0, _, _, _, _, _ => .error .fuelExhausted
  | fuel + 1, env, oc, i, start_port, s =>
    if s.ps.isSome then
      .error .alreadyStarted
    else
      match (if s.start_node then
               NodeProcess.create_local_ipc_provider env CHAIN start_port s
             else
               NodeProcess.create_remote_rpc_provider s) with
      | .error e => .error e
      | .ok (provider, s1) =>
        let s2 := { s1 with web3 := some provider }
        match oc i with
        | .timeout =>
          match NodeProcess.start_timed_out provider s2 with
          | .fail e => .error e
          | .retry s3 => NodeProcess.startFuel fuel env oc (i + 1) start_port s3
        | .genesis b =>
          let identified_chain := identify_chain b
          if identified_chain ≠ CHAIN then
            .error (.wrongChain identified_chain)
          else
            .ok s2

/-- `NodeProcess.start(start_port)` on a given attempt oracle, entered at
attempt index `i`. -/
def NodeProcess.start (env : Env) (oc : Nat → AttemptOutcome) (i : Nat)
    (start_port : Option Nat) (s : NodeProcess) : Except Err NodeProcess :=
  NodeProcess.startFuel (s.addr_list.length + 1) env oc i start_port s

/-- Modelled from Python's standard library (not part of this repository):
the exception classes that the `subprocess` module defines.  There is no
class named `NoSuchProcess` among them (that class belongs to the
third-party `psutil` package), which is what makes the `except` clause in
`NodeProcess.stop` itself raise `AttributeError` when evaluated. -/
def SUBPROCESS_EXCEPTION_CLASSES : List String :=
  ["SubprocessError", "TimeoutExpired", "CalledProcessError"]

/-- Whether `self.__ps.terminate()` / `self.__ps.wait()` raise because
the underlying process has already vanished. -/
structure StopWorld where
  terminate_raises : Bool

/-- `NodeProcess.stop()`.

When `self.__ps` is falsy the body is skipped entirely.  Otherwise
`terminate()`/`wait()` run inside `try`; if they raise, Python evaluates
the `except subprocess.NoSuchProcess:` clause, which requires resolving
the attribute `NoSuchProcess` on the `subprocess` module — modelled by
membership in `SUBPROCESS_EXCEPTION_CLASSES`.  If that attribute existed
the handler would log a warning and execution would continue to
`self.__ps = None`; since it does not, the attribute lookup raises
`AttributeError`, which propagates out of `stop` and leaves `self.__ps`
set. -/
def NodeProcess.stop (w : StopWorld) (s : NodeProcess) :
    Except Err NodeProcess :=
  match s.ps with
  | none => .ok s
  | some _ =>
    if w.terminate_raises then
      if SUBPROCESS_EXCEPTION_CLASSES.contains "NoSuchProcess" then
        .ok { s with ps := none }
      else
        .error .attributeError
    else
      .ok { s with ps := none }

/-- Environment with no `geth` binary on the PATH. -/
def defaultEnv : Env := ⟨none, 30303, 4321, "/tmp", false⟩

/-- Environment with a compatible `geth` 1.7.3 on the PATH (POSIX). -/
def gethEnv : Env := ⟨some ("geth", ⟨1, 7, 3⟩), 30303, 4321, "/tmp", false⟩

/-- Environment with a compatible `geth` 1.7.3 on the PATH (Windows). -/
def winEnv : Env := ⟨some ("geth", ⟨1, 7, 3⟩), 30303, 4321, "C:/Temp", true⟩

/-- Environment whose `geth` binary reports version `v` (POSIX). -/
def versionEnv (v : GethVersion) : Env :=
  ⟨some ("geth", v), 30303, 4321, "/tmp", false⟩

/-- Oracle: every attempt's deadline elapses (the endpoint never answers). -/
def ocAllTimeout : Nat → AttemptOutcome := fun _ => .timeout

/-- Oracle: every attempt obtains the Rinkeby genesis block in time. -/
def ocAllRinkeby : Nat → AttemptOutcome :=
  fun _ => .genesis ⟨RINKEBY_GENESIS_HASH⟩

/-- Oracle: every attempt obtains the mainnet genesis block in time. -/
def ocAllMainnet : Nat → AttemptOutcome :=
  fun _ => .genesis ⟨MAINNET_GENESIS_HASH⟩

/-- Oracle: the first attempt times out, every later one obtains the
Rinkeby genesis block in time. -/
def ocTimeoutThenRinkeby : Nat → AttemptOutcome :=
  fun i => match i with
    | 0 => .timeout
    | _ + 1 => .genesis ⟨RINKEBY_GENESIS_HASH⟩

/-- One-step unfolding of `startFuel` at positive fuel (the literal body,
usable for rewriting). -/
theorem startFuel_succ (fuel : Nat) (env : Env) (oc : Nat → AttemptOutcome)
    (i : Nat) (start_port : Option Nat) (s : NodeProcess) :
    NodeProcess.startFuel (fuel + 1) env oc i start_port s =
      (if s.ps.isSome then
        .error .alreadyStarted
      else
        match (if s.start_node then
                 NodeProcess.create_local_ipc_provider env CHAIN start_port s
               else
                 NodeProcess.create_remote_rpc_provider s) with
        | .error e => .error e
        | .ok (provider, s1) =>
          let s2 := { s1 with web3 := some provider }
          match oc i with
          | .timeout =>
            match NodeProcess.start_timed_out provider s2 with
            | .fail e => .error e
            | .retry s3 =>
              NodeProcess.startFuel fuel env oc (i + 1) start_port s3
          | .genesis b =>
            let identified_chain := identify_chain b
            if identified_chain ≠ CHAIN then
              .error (.wrongChain identified_chain)
            else
              .ok s2) := rfl

/-- A successful `_create_local_ipc_provider` call leaves `start_node` and
`addr_list` untouched and installs the spawned child's handle in `ps`. -/
theorem create_local_ipc_provider_ok (env : Env) (chain : String)
    (port : Option Nat) (s : NodeProcess) (provider : Provider)
    (s1 : NodeProcess)
    (h : NodeProcess.create_local_ipc_provider env chain port s =
      .ok (provider, s1)) :
    s1.start_node = s.start_node ∧ s1.addr_list = s.addr_list ∧
      s1.ps = some env.pid := by
  unfold NodeProcess.create_local_ipc_provider NodeProcess.find_geth at h
  cases hg : env.geth with
  | none => rw [hg] at h; exact absurd h (by simp)
  | some gv =>
    obtain ⟨geth, ver⟩ := gv
    rw [hg] at h
    by_cases hv : (GethVersion.lt ver MIN_GETH_VERSION ||
        GethVersion.lt MAX_GETH_VERSION ver) = true
    · simp [hv] at h
    · simp only [Bool.not_eq_true] at hv
      simp only [hv, Bool.false_eq_true, if_false] at h
      obtain ⟨hp, hs⟩ := by simpa using h
      subst hs
      simp

/-- A successful `_create_remote_rpc_provider` call pops the last
candidate and changes nothing else. -/
theorem create_remote_rpc_provider_ok (s : NodeProcess)
    (provider : Provider) (s1 : NodeProcess)
    (h : NodeProcess.create_remote_rpc_provider s = .ok (provider, s1)) :
    s1 = { s with addr_list := s.addr_list.dropLast } ∧
      s.addr_list ≠ [] := by
  unfold NodeProcess.create_remote_rpc_provider at h
  cases hl : s.addr_list.getLast? with
  | none => rw [hl] at h; exact absurd h (by simp)
  | some addr =>
    rw [hl] at h
    obtain ⟨hp, hs⟩ := by simpa using h
    constructor
    · exact hs.symm
    · intro hemp
      rw [hemp] at hl
      simp at hl

/-- C5 (confirmed): `_find_geth` accepts a reported version `v` exactly
when `MIN_GETH_VERSION ≤ v ≤ MAX_GETH_VERSION` in the lexicographic
(major, minor, patch) order, both bounds inclusive, and otherwise raises
the incompatible-version error; in particular 1.7.1 and 1.8.0 are
rejected while 1.7.2 and 1.7.999 are accepted. -/
theorem geth_version_gate :
    (∀ (v : GethVersion) (s : NodeProcess),
      NodeProcess.find_geth (versionEnv v) s = .ok { s with prog := some "geth" } ↔
        (GethVersion.le MIN_GETH_VERSION v = true ∧
          GethVersion.le v MAX_GETH_VERSION = true)) ∧
    (∀ (v : GethVersion) (s : NodeProcess),
      NodeProcess.find_geth (versionEnv v) s = .error (.incompatibleVersion v) ↔
        ¬(GethVersion.le MIN_GETH_VERSION v = true ∧
          GethVersion.le v MAX_GETH_VERSION = true)) ∧
    (∀ s : NodeProcess,
      NodeProcess.find_geth (versionEnv ⟨1, 7, 1⟩) s =
        .error (.incompatibleVersion ⟨1, 7, 1⟩)) ∧
    (∀ s : NodeProcess,
      NodeProcess.find_geth (versionEnv ⟨1, 7, 2⟩) s =
        .ok { s with prog := some "geth" }) ∧
    (∀ s : NodeProcess,
      NodeProcess.find_geth (versionEnv ⟨1, 7, 999⟩) s =
        .ok { s with prog := some "geth" }) ∧
    (∀ s : NodeProcess,
      NodeProcess.find_geth (versionEnv ⟨1, 8, 0⟩) s =
        .error (.incompatibleVersion ⟨1, 8, 0⟩)) := by
  refine ⟨?_, ?_, ?_, ?_, ?_, ?_⟩
  · intro v s
    obtain ⟨v1, v2, v3⟩ := v
    simp only [NodeProcess.find_geth, versionEnv, GethVersion.le,
      GethVersion.lt, MIN_GETH_VERSION, MAX_GETH_VERSION,
      GethVersion.mk.injEq, Bool.or_eq_true, Bool.and_eq_true,
      decide_eq_true_eq]
    by_cases hlt : (v1 < 1 ∨ v1 = 1 ∧ (v2 < 7 ∨ v2 = 7 ∧ v3 < 2)) ∨
        (1 < v1 ∨ 1 = v1 ∧ (7 < v2 ∨ 7 = v2 ∧ 999 < v3))
    · rw [if_pos (by simpa using hlt)]
      simp only [reduceCtorEq, false_iff]
      omega
    · rw [if_neg (by simpa using hlt)]
      simp only [Except.ok.injEq, true_iff]
      omega
  · intro v s
    obtain ⟨v1, v2, v3⟩ := v
    simp only [NodeProcess.find_geth, versionEnv, GethVersion.le,
      GethVersion.lt, MIN_GETH_VERSION, MAX_GETH_VERSION,
      GethVersion.mk.injEq, Bool.or_eq_true, Bool.and_eq_true,
      decide_eq_true_eq]
    by_cases hlt : (v1 < 1 ∨ v1 = 1 ∧ (v2 < 7 ∨ v2 = 7 ∧ v3 < 2)) ∨
        (1 < v1 ∨ 1 = v1 ∧ (7 < v2 ∨ 7 = v2 ∧ 999 < v3))
    · rw [if_pos (by simpa using hlt)]
      simp only [Except.error.injEq, Err.incompatibleVersion.injEq, true_iff]
      omega
    · rw [if_neg (by simpa using hlt)]
      simp only [reduceCtorEq, false_iff, not_not]
      omega
  · intro s; rfl
  · intro s; rfl
  · intro s; rfl
  · intro s; rfl

/-- C9 (confirmed): `identify_chain` is a pure function of the genesis
block hash; the three known fingerprints map to their network names and
every other fingerprint maps to "unknown". -/
theorem identify_chain_table :
    identify_chain ⟨MAINNET_GENESIS_HASH⟩ = "mainnet" ∧
    identify_chain ⟨ROPSTEN_GENESIS_HASH⟩ = "ropsten" ∧
    identify_chain ⟨RINKEBY_GENESIS_HASH⟩ = "rinkeby" ∧
    ∀ h : String, h ≠ MAINNET_GENESIS_HASH → h ≠ ROPSTEN_GENESIS_HASH →
      h ≠ RINKEBY_GENESIS_HASH → identify_chain ⟨h⟩ = "unknown" := by
  refine ⟨rfl, rfl, rfl, ?_⟩
  intro h h1 h2 h3
  have e1 : (h == MAINNET_GENESIS_HASH) = false := beq_eq_false_iff_ne.mpr h1
  have e2 : (h == ROPSTEN_GENESIS_HASH) = false := beq_eq_false_iff_ne.mpr h2
  have e3 : (h == RINKEBY_GENESIS_HASH) = false := beq_eq_false_iff_ne.mpr h3
  simp [identify_chain, GENESES, List.lookup, e1, e2, e3]

/-- Witness for C9: a fingerprint outside the table resolves to
"unknown". -/
theorem identify_chain_table_witness :
    identify_chain ⟨"0xdeadbeef"⟩ = "unknown" :=
  identify_chain_table.2.2.2 "0xdeadbeef" (by decide) (by decide) (by decide)

/-- `_create_local_ipc_provider` can only fail with the geth-not-found or
incompatible-version errors. -/
theorem create_local_ipc_provider_error (env : Env) (chain : String)
    (port : Option Nat) (s : NodeProcess) (e : Err)
    (h : NodeProcess.create_local_ipc_provider env chain port s = .error e) :
    e = .gethNotFound ∨ ∃ v, e = .incompatibleVersion v := by
  unfold NodeProcess.create_local_ipc_provider NodeProcess.find_geth at h
  cases hg : env.geth with
  | none =>
    rw [hg] at h
    exact Or.inl (by simpa using h.symm)
  | some gv =>
    obtain ⟨geth, ver⟩ := gv
    rw [hg] at h
    by_cases hv : (GethVersion.lt ver MIN_GETH_VERSION ||
        GethVersion.lt MAX_GETH_VERSION ver) = true
    · simp only [hv, if_true] at h
      exact Or.inr ⟨ver, by simpa using h.symm⟩
    · simp [hv] at h

/-- `_create_remote_rpc_provider` can only fail with the `IndexError`
from popping an empty candidate list. -/
theorem create_remote_rpc_provider_error (s : NodeProcess) (e : Err)
    (h : NodeProcess.create_remote_rpc_provider s = .error e) :
    e = .popFromEmpty := by
  unfold NodeProcess.create_remote_rpc_provider at h
  cases hl : s.addr_list.getLast? with
  | none =>
    rw [hl] at h
    simpa using h.symm
  | some addr =>
    rw [hl] at h
    simp at h

/-- The attempt bound is sufficient: `startFuel` with fuel strictly above
the candidate-list length never hits the artificial `fuelExhausted`
branch.  Each retry pops one remote candidate first (a local attempt
never retries), so the recursion depth of the source's `start` is bounded
by the candidate count plus one. -/
theorem startFuel_sufficient :
    ∀ (fuel : Nat) (env : Env) (oc : Nat → AttemptOutcome) (i : Nat)
      (port : Option Nat) (s : NodeProcess),
      s.addr_list.length < fuel →
      NodeProcess.startFuel fuel env oc i port s ≠ .error .fuelExhausted := by
  intro fuel
  induction fuel with
  | zero => intro env oc i port s h; omega
  | succ fuel ih =>
    intro env oc i port s h
    rw [startFuel_succ]
    by_cases hps : s.ps.isSome = true
    · simp [hps]
    · rw [if_neg (by simp [hps])]
      by_cases hsn : s.start_node = true
      · rw [if_pos hsn]
        cases hcl : NodeProcess.create_local_ipc_provider env CHAIN port s with
        | error e =>
          rcases create_local_ipc_provider_error env CHAIN port s e hcl with
            h1 | ⟨v, h1⟩ <;> simp [h1]
        | ok pr =>
          obtain ⟨provider, s1⟩ := pr
          have hsn1 : s1.start_node = true := by
            rw [(create_local_ipc_provider_ok env CHAIN port s
              provider s1 hcl).1]
            exact hsn
          cases hoc : oc i with
          | genesis b =>
            by_cases hch : identify_chain b ≠ CHAIN
            · simp [hch]
            · simp [hch]
          | timeout =>
            simp [NodeProcess.start_timed_out, hsn1]
      · rw [if_neg hsn]
        cases hcr : NodeProcess.create_remote_rpc_provider s with
        | error e =>
          simp [create_remote_rpc_provider_error s e hcr]
        | ok pr =>
          obtain ⟨provider, s1⟩ := pr
          have hfacts := create_remote_rpc_provider_ok s provider s1 hcr
          have hsn1 : s1.start_node = false := by
            rw [hfacts.1]
            simpa using hsn
          cases hoc : oc i with
          | genesis b =>
            by_cases hch : identify_chain b ≠ CHAIN
            · simp [hch]
            · simp [hch]
          | timeout =>
            simp only [NodeProcess.start_timed_out, hsn1, Bool.not_false,
              if_true]
            apply ih
            have hlist : s1.addr_list = s.addr_list.dropLast := by
              rw [hfacts.1]
            have hpos : 0 < s.addr_list.length :=
              List.length_pos.mpr hfacts.2
            simp only [hlist, List.length_dropLast]
            omega

/-- `NodeProcess.start` never returns the embedding artifact
`fuelExhausted`: the instantiated attempt bound is always sufficient. -/
theorem start_never_fuel_exhausted (env : Env) (oc : Nat → AttemptOutcome)
    (i : Nat) (port : Option Nat) (s : NodeProcess) :
    NodeProcess.start env oc i port s ≠ .error .fuelExhausted :=
  startFuel_sufficient (s.addr_list.length + 1) env oc i port s
    (Nat.lt_succ_self _)

/-- Counterexample for C6: when the directory fetch SUCCEEDS but the
directory returns the empty JSON list, `get_public_nodes` returns that
empty list as-is, so the result is not always non-empty as the claim
states. -/
theorem get_public_nodes_empty_directory_response :
    get_public_nodes (some []) (fun l => l) = [] := rfl

/-- C6 (corrected): when the directory fetch fails in any way, the
failure is absorbed and the result is the shuffled copy of the static
fallback list — a permutation of it, hence non-empty; when the fetch
succeeds, the result is exactly the fetched list, hence non-empty
whenever the directory returned a non-empty list. -/
theorem get_public_nodes_fallback :
    (∀ shuffle : List String → List String,
      (shuffle FALLBACK_NODE_LIST).Perm FALLBACK_NODE_LIST →
        (get_public_nodes none shuffle).Perm FALLBACK_NODE_LIST ∧
          get_public_nodes none shuffle ≠ []) ∧
    (∀ (nodes : List String) (shuffle : List String → List String),
      get_public_nodes (some nodes) shuffle = nodes ∧
        (nodes ≠ [] → get_public_nodes (some nodes) shuffle ≠ [])) := by
  constructor
  · intro shuffle hperm
    refine ⟨hperm, ?_⟩
    intro hemp
    have := hperm.length_eq
    rw [show get_public_nodes none shuffle = shuffle FALLBACK_NODE_LIST
      from rfl] at hemp
    rw [hemp] at this
    simp [FALLBACK_NODE_LIST] at this
  · intro nodes shuffle
    exact ⟨rfl, fun h => h⟩

/-- Witness for C6 (corrected): with the identity permutation the
fallback path returns a permutation of the static list and is non-empty,
and a successful fetch of a singleton list is returned as-is. -/
theorem get_public_nodes_fallback_witness :
    (get_public_nodes none (fun l => l)).Perm FALLBACK_NODE_LIST ∧
      get_public_nodes none (fun l => l) ≠ [] ∧
      get_public_nodes (some ["http://x:1"]) (fun l => l) ≠ [] :=
  ⟨(get_public_nodes_fallback.1 (fun l => l) (List.Perm.refl _)).1,
   (get_public_nodes_fallback.1 (fun l => l) (List.Perm.refl _)).2,
   (get_public_nodes_fallback.2 ["http://x:1"] (fun l => l)).2 (by decide)⟩

/-- C7 (code bug): `stop()` on a supervisor that owns no child process is
a no-op (second conjunct), but when a child process is owned and
terminating it raises because the process has already vanished, the
`except subprocess.NoSuchProcess:` clause itself raises `AttributeError`
(the `subprocess` module defines no such class), so the error propagates
instead of being downgraded to a warning, and the child-process record is
NOT cleared (first conjunct evaluates the embedded code at that failing
input). -/
theorem stop_vanished_process_raises :
    NodeProcess.stop ⟨true⟩ ⟨"/data", true, none, [], some "geth", some 4321⟩ =
      .error Err.attributeError ∧
    NodeProcess.stop ⟨false⟩ ⟨"/data", false, none, [], none, none⟩ =
      .ok ⟨"/data", false, none, [], none, none⟩ ∧
    NodeProcess.stop ⟨false⟩ ⟨"/data", true, none, [], some "geth", some 4321⟩ =
      .ok ⟨"/data", true, none, [], some "geth", none⟩ :=
  ⟨rfl, rfl, rfl⟩

/-- C8 (code bug): on POSIX the local transport path is
`<tmpdir>/<chain>-<port>` as specified (first conjunct), but on Windows
the source formats `self.start_node` — the boolean `True` — into the
named-pipe path instead of the `<chain>-<port>` flag, so two instances on
different ports both get the constant path `\\.\pipe\True` (second and
third conjuncts evaluate the embedded code at the failing input). -/
theorem windows_ipc_path_ignores_port :
    NodeProcess.create_local_ipc_provider gethEnv CHAIN (some 30303)
        ⟨"/data", true, none, [], none, none⟩ =
      .ok (Provider.ipc "/tmp/rinkeby-30303",
        ⟨"/data", true, none, [], some "geth", some 4321⟩) ∧
    NodeProcess.create_local_ipc_provider winEnv CHAIN (some 8545)
        ⟨"/data", true, none, [], none, none⟩ =
      .ok (Provider.ipc "\\\\.\\pipe\\True",
        ⟨"/data", true, none, [], some "geth", some 4321⟩) ∧
    NodeProcess.create_local_ipc_provider winEnv CHAIN (some 8546)
        ⟨"/data", true, none, [], none, none⟩ =
      .ok (Provider.ipc "\\\\.\\pipe\\True",
        ⟨"/data", true, none, [], some "geth", some 4321⟩) :=
  ⟨rfl, rfl, rfl⟩

/-- Counterexample for C1: a run whose first attempt's deadline elapses
in remote-connect mode WHILE REMOTE CANDIDATES REMAIN does not fail
permanently with a cannot-connect error as the claim states — it retries
with the next candidate and here even ends in success. -/
theorem start_timeout_with_candidates_retries :
    ocTimeoutThenRinkeby 0 = AttemptOutcome.timeout ∧
    NodeProcess.start defaultEnv ocTimeoutThenRinkeby 0 none
        ⟨"/data", false, none, ["http://a:1", "http://b:2"], none, none⟩ =
      .ok ⟨"/data", false, some (Provider.http "http://a:1"), [], none, none⟩ :=
  ⟨rfl, rfl⟩

/-- C1 (corrected): when the deadline elapses while still connecting or
awaiting genesis, a supervisor in remote-connect mode switches to
local-spawn mode iff the candidate list is empty at that moment, and in
EVERY case restarts the whole attempt (having consumed the last
candidate); only a supervisor already in local-spawn mode fails
permanently with the cannot-connect error naming the attempted
provider. -/
theorem start_timeout_policy :
    (∀ (env : Env) (oc : Nat → AttemptOutcome) (i : Nat) (port : Option Nat)
      (s : NodeProcess) (hne : s.addr_list ≠ []),
      s.ps = none → s.start_node = false → oc i = .timeout →
      NodeProcess.start env oc i port s =
        NodeProcess.start env oc (i + 1) port
          { s with
            addr_list := s.addr_list.dropLast,
            web3 := some (Provider.http (s.addr_list.getLast hne)),
            start_node := s.addr_list.dropLast.isEmpty }) ∧
    (∀ (env : Env) (oc : Nat → AttemptOutcome) (i : Nat) (port : Option Nat)
      (s : NodeProcess) (provider : Provider) (s1 : NodeProcess),
      s.ps = none → s.start_node = true →
      NodeProcess.create_local_ipc_provider env CHAIN port s =
        .ok (provider, s1) →
      oc i = .timeout →
      NodeProcess.start env oc i port s =
        .error (.cannotConnect provider)) := by
  constructor
  · intro env oc i port s hne hps hsn hoc
    have hpos : 0 < s.addr_list.length := List.length_pos.mpr hne
    have hlast : s.addr_list.getLast? = some (s.addr_list.getLast hne) :=
      List.getLast?_eq_getLast s.addr_list hne
    unfold NodeProcess.start
    rw [startFuel_succ, if_neg (by simp [hps]), if_neg (by simp [hsn])]
    simp only [NodeProcess.create_remote_rpc_provider, hlast, hoc,
      NodeProcess.start_timed_out]
    have hflen :
        ({ s with
            addr_list := s.addr_list.dropLast,
            web3 := some (Provider.http (s.addr_list.getLast hne)),
            start_node := s.addr_list.dropLast.isEmpty } :
          NodeProcess).addr_list.length + 1 = s.addr_list.length := by
      simp only [List.length_dropLast]
      omega
    rw [hflen]
    simp [hsn]
  · intro env oc i port s provider s1 hps hsn hcl hoc
    have hsn1 : s1.start_node = true := by
      rw [(create_local_ipc_provider_ok env CHAIN port s provider s1 hcl).1]
      exact hsn
    unfold NodeProcess.start
    rw [startFuel_succ, if_neg (by simp [hps]), if_pos hsn, hcl]
    simp [hoc, NodeProcess.start_timed_out, hsn1]

/-- Witness for C1 (corrected): a remote-mode timeout with a candidate
remaining restarts with that candidate, and a local-mode timeout fails
permanently naming the local IPC provider. -/
theorem start_timeout_policy_witness :
    NodeProcess.start defaultEnv ocAllTimeout 0 none
        ⟨"/data", false, none, ["http://a:1", "http://b:2"], none, none⟩ =
      NodeProcess.start defaultEnv ocAllTimeout 1 none
        { (⟨"/data", false, none, ["http://a:1", "http://b:2"], none, none⟩ :
            NodeProcess) with
          addr_list := (["http://a:1", "http://b:2"] : List String).dropLast,
          web3 := some (Provider.http
            ((["http://a:1", "http://b:2"] : List String).getLast (by decide))),
          start_node :=
            (["http://a:1", "http://b:2"] : List String).dropLast.isEmpty } ∧
    NodeProcess.start gethEnv ocAllTimeout 0 none
        ⟨"/data", true, none, [], none, none⟩ =
      .error (.cannotConnect (Provider.ipc "/tmp/rinkeby-30303")) :=
  ⟨start_timeout_policy.1 defaultEnv ocAllTimeout 0 none _ (by decide)
      rfl rfl rfl,
   start_timeout_policy.2 gethEnv ocAllTimeout 0 none
      ⟨"/data", true, none, [], none, none⟩
      (Provider.ipc "/tmp/rinkeby-30303")
      ⟨"/data", true, none, [], some "geth", some 4321⟩ rfl rfl rfl rfl⟩

/-- Counterexample for C2: a supervisor whose first `start` succeeded in
connect-remote mode accepts a second `start` without any error — the
already-started guard only fires on the child-process handle, which
remote mode never sets. -/
theorem second_start_after_remote_success_succeeds :
    (NodeProcess.start defaultEnv ocAllRinkeby 0 none
        ⟨"/data", false, none, ["http://a:1", "http://b:2"], none, none⟩).bind
      (fun s1 => NodeProcess.start defaultEnv ocAllRinkeby 1 none s1) =
      .ok ⟨"/data", false, some (Provider.http "http://a:1"), [], none, none⟩ :=
  rfl

/-- C2 (corrected): `start` raises the already-started error exactly when
a child-process handle is owned; a local-spawn `start` that succeeds
installs such a handle (so a second `start` after it does fail), while a
purely remote `start` never does. -/
theorem already_started_guard :
    (∀ (env : Env) (oc : Nat → AttemptOutcome) (i : Nat) (port : Option Nat)
      (s : NodeProcess), s.ps.isSome = true →
      NodeProcess.start env oc i port s = .error .alreadyStarted) ∧
    (∀ (env : Env) (oc : Nat → AttemptOutcome) (i : Nat) (port : Option Nat)
      (s s' : NodeProcess), s.start_node = true →
      NodeProcess.start env oc i port s = .ok s' →
      s'.ps.isSome = true) := by
  constructor
  · intro env oc i port s h
    unfold NodeProcess.start
    rw [startFuel_succ, if_pos h]
  · intro env oc i port s s' hsn hok
    unfold NodeProcess.start at hok
    rw [startFuel_succ] at hok
    by_cases hps : s.ps.isSome = true
    · rw [if_pos hps] at hok
      simp at hok
    · rw [if_neg hps, if_pos hsn] at hok
      cases hcl : NodeProcess.create_local_ipc_provider env CHAIN port s with
      | error e =>
        rw [hcl] at hok
        simp at hok
      | ok pr =>
        obtain ⟨provider, s1⟩ := pr
        rw [hcl] at hok
        have hfacts := create_local_ipc_provider_ok env CHAIN port s
          provider s1 hcl
        cases hoc : oc i with
        | timeout =>
          rw [hoc] at hok
          have hsn1 : s1.start_node = true := by
            rw [hfacts.1]; exact hsn
          simp [NodeProcess.start_timed_out, hsn1] at hok
        | genesis b =>
          rw [hoc] at hok
          by_cases hch : identify_chain b ≠ CHAIN
          · simp [hch] at hok
          · rw [ne_eq, not_not] at hch
            simp [hch] at hok
            rw [← hok]
            simp [hfacts.2.2]

/-- Witness for C2 (corrected): a supervisor owning a child-process
handle rejects `start`, and a successful local-spawn `start` ends owning
a child-process handle. -/
theorem already_started_guard_witness :
    NodeProcess.start defaultEnv ocAllRinkeby 5 none
        ⟨"/data", false, none, [], none, some 4321⟩ =
      .error Err.alreadyStarted ∧
    (⟨"/data", true, some (Provider.ipc "/tmp/rinkeby-30303"), [],
        some "geth", some 4321⟩ : NodeProcess).ps.isSome = true :=
  ⟨already_started_guard.1 defaultEnv ocAllRinkeby 5 none _ rfl,
   already_started_guard.2 gethEnv ocAllRinkeby 0 none
     ⟨"/data", true, none, [], none, none⟩
     ⟨"/data", true, some (Provider.ipc "/tmp/rinkeby-30303"), [],
        some "geth", some 4321⟩ rfl rfl⟩

/-- Counterexample for C3: with the single remote candidate
`http://bad:1`, local spawn not configured and no `geth` binary present,
a `start` whose every attempt times out does NOT fail with cannot-connect
naming `http://bad:1` — after the candidate is consumed the supervisor
switches to local-spawn mode and the failure is the local-mode
geth-not-found error. -/
theorem bad_candidate_fallback_error :
    NodeProcess.start defaultEnv ocAllTimeout 0 none
        (NodeProcess.init "/data" (some "http://bad:1")
          FALLBACK_NODE_LIST false) =
      .error Err.gethNotFound ∧
    Err.gethNotFound ≠ Err.cannotConnect (Provider.http "http://bad:1") :=
  ⟨rfl, by decide⟩

/-- C3 (corrected): with remote candidate list `["http://bad:1"]`, local
spawn not configured and the liveness check never succeeding, the first
timeout (the list now being empty) switches the supervisor to local-spawn
mode and `start` retries locally; it fails with the local-mode error —
geth-not-found when the binary is absent, or cannot-connect naming the
LOCAL IPC provider when a compatible binary was spawned — never with
cannot-connect naming `http://bad:1`. -/
theorem bad_candidate_falls_back_to_local :
    NodeProcess.start defaultEnv ocAllTimeout 0 none
        (NodeProcess.init "/data" (some "http://bad:1")
          FALLBACK_NODE_LIST false) =
      .error Err.gethNotFound ∧
    NodeProcess.start gethEnv ocAllTimeout 0 none
        (NodeProcess.init "/data" (some "http://bad:1")
          FALLBACK_NODE_LIST false) =
      .error (Err.cannotConnect (Provider.ipc "/tmp/rinkeby-30303")) :=
  ⟨rfl, rfl⟩

/-- C4 (confirmed): whenever an attempt obtains a genesis block whose
fingerprint resolves to a chain different from `rinkeby`, `start` fails
immediately and permanently with the wrong-chain error — regardless of
the remaining candidates and of all later oracle outcomes (so no
fallback and no retry happen). -/
theorem wrong_chain_fails_immediately :
    ∀ (env : Env) (oc : Nat → AttemptOutcome) (i : Nat) (port : Option Nat)
      (s : NodeProcess) (provider : Provider) (s1 : NodeProcess) (b : Block),
      s.ps = none →
      (if s.start_node then
        NodeProcess.create_local_ipc_provider env CHAIN port s
      else
        NodeProcess.create_remote_rpc_provider s) = .ok (provider, s1) →
      oc i = .genesis b →
      identify_chain b ≠ CHAIN →
      NodeProcess.start env oc i port s =
        .error (.wrongChain (identify_chain b)) := by
  intro env oc i port s provider s1 b hps hpr hoc hch
  unfold NodeProcess.start
  rw [startFuel_succ, if_neg (by simp [hps]), hpr]
  simp [hoc, hch]

/-- Witness for C4: a remote attempt that obtains the mainnet genesis
block fails with the wrong-chain error. -/
theorem wrong_chain_fails_immediately_witness :
    NodeProcess.start defaultEnv ocAllMainnet 0 none
        ⟨"/data", false, none, ["http://a:1"], none, none⟩ =
      .error (.wrongChain (identify_chain ⟨MAINNET_GENESIS_HASH⟩)) :=
  wrong_chain_fails_immediately defaultEnv ocAllMainnet 0 none
    ⟨"/data", false, none, ["http://a:1"], none, none⟩
    (Provider.http "http://a:1") ⟨"/data", false, none, [], none, none⟩
    ⟨MAINNET_GENESIS_HASH⟩ rfl rfl rfl (by decide)

/-- A run of `startFuel` that ends in success with the mode still set to
remote-connect never fell back to local-spawn (the mode is never reset),
so it never touched the child-process handle. -/
theorem startFuel_remote_ok_ps :
    ∀ (fuel : Nat) (env : Env) (oc : Nat → AttemptOutcome) (i : Nat)
      (port : Option Nat) (s s' : NodeProcess),
      NodeProcess.startFuel fuel env oc i port s = .ok s' →
      s'.start_node = false →
      s'.ps = s.ps ∧ s.start_node = false := by
  intro fuel
  induction fuel with
  | zero =>
    intro env oc i port s s' hok
    simp [NodeProcess.startFuel] at hok
  | succ fuel ih =>
    intro env oc i port s s' hok hsn'
    rw [startFuel_succ] at hok
    by_cases hps : s.ps.isSome = true
    · rw [if_pos hps] at hok
      simp at hok
    · rw [if_neg hps] at hok
      by_cases hsn : s.start_node = true
      · rw [if_pos hsn] at hok
        cases hcl : NodeProcess.create_local_ipc_provider env CHAIN port s with
        | error e =>
          rw [hcl] at hok
          simp at hok
        | ok pr =>
          obtain ⟨provider, s1⟩ := pr
          rw [hcl] at hok
          have hsn1 : s1.start_node = true := by
            rw [(create_local_ipc_provider_ok env CHAIN port s
              provider s1 hcl).1]
            exact hsn
          cases hoc : oc i with
          | timeout =>
            rw [hoc] at hok
            simp [NodeProcess.start_timed_out, hsn1] at hok
          | genesis b =>
            rw [hoc] at hok
            by_cases hch : identify_chain b ≠ CHAIN
            · simp [hch] at hok
            · rw [ne_eq, not_not] at hch
              simp [hch] at hok
              rw [← hok] at hsn'
              simp [hsn1] at hsn'
      · rw [if_neg hsn] at hok
        cases hcr : NodeProcess.create_remote_rpc_provider s with
        | error e =>
          rw [hcr] at hok
          simp at hok
        | ok pr =>
          obtain ⟨provider, s1⟩ := pr
          rw [hcr] at hok
          have hfacts := create_remote_rpc_provider_ok s provider s1 hcr
          cases hoc : oc i with
          | timeout =>
            rw [hoc] at hok
            have hsn1 : s1.start_node = false := by
              rw [hfacts.1]
              simpa using hsn
            simp only [NodeProcess.start_timed_out, hsn1, Bool.not_false,
              if_true] at hok
            have hrec := ih env oc (i + 1) port _ s' hok hsn'
            refine ⟨?_, by simpa using hsn⟩
            rw [hrec.1, hfacts.1]
          | genesis b =>
            rw [hoc] at hok
            by_cases hch : identify_chain b ≠ CHAIN
            · simp [hch] at hok
            · rw [ne_eq, not_not] at hch
              simp [hch] at hok
              rw [← hok]
              refine ⟨?_, by simpa using hsn⟩
              rw [hfacts.1]

/-- C10 (confirmed): a `start` that ran in connect-remote mode and
succeeded without ever falling back to local-spawn (the final mode is
still remote-connect) owns no child-process handle, and `is_running` is
false both before and after it. -/
theorem remote_start_owns_no_process :
    ∀ (env : Env) (oc : Nat → AttemptOutcome) (i : Nat) (port : Option Nat)
      (s s' : NodeProcess),
      s.start_node = false → s.ps = none →
      NodeProcess.start env oc i port s = .ok s' →
      s'.start_node = false →
      s.is_running = false ∧ s'.is_running = false ∧ s'.ps = none := by
  intro env oc i port s s' hsn hps hok hsn'
  have h := startFuel_remote_ok_ps (s.addr_list.length + 1) env oc i port
    s s' hok hsn'
  have hps' : s'.ps = none := by rw [h.1, hps]
  refine ⟨?_, ?_, hps'⟩
  · simp [NodeProcess.is_running, hps]
  · simp [NodeProcess.is_running, hps']

/-- Witness for C10: a concrete purely-remote successful `start` owns no
child process before or after. -/
theorem remote_start_owns_no_process_witness :
    (⟨"/data", false, none, ["http://a:1"], none, none⟩ :
      NodeProcess).is_running = false ∧
    (⟨"/data", false, some (Provider.http "http://a:1"), [], none, none⟩ :
      NodeProcess).is_running = false ∧
    (⟨"/data", false, some (Provider.http "http://a:1"), [], none, none⟩ :
      NodeProcess).ps = none :=
  remote_start_owns_no_process defaultEnv ocAllRinkeby 0 none
    ⟨"/data", false, none, ["http://a:1"], none, none⟩
    ⟨"/data", false, some (Provider.http "http://a:1"), [], none, none⟩
    rfl rfl rfl rfl

end Golem
